import Mathlib

/-!
Shallow embedding of the Maverics-Seneca partner-service repository.

The repository contains two HTTP microservices:

* a caretaker CRUD service (`src/server.js`, three near-duplicate variants
  concatenated; an earlier variant also appears as `src/unnamed/part_000`)
  backed by a Firestore document store with collections `caretakers`,
  `users` and `logs`;
* a partner-code service (`src/unnamed/part_001`) holding an in-process
  mapping from 6-character codes to user ids.

The document store is modelled as association lists keyed by document id.
JavaScript string falsiness is modelled by equality with the empty string
(all the request fields involved are strings).  Server-assigned timestamps
are modelled by a `time` field of the store state.  Firestore's fresh
document ids are modelled by a counter `nextId`; the generated id is
`"c" ++ toString nextId`, which is injective and non-empty, the only two
properties the code relies on.

Store failures inside the audit logger (`logChange`) are modelled by a
`Faults` record: the JavaScript `try/catch` of `logChange` is embedded as
a total function that returns the unchanged state when the corresponding
operation would have thrown.
-/

namespace PartnerService

/-- A caretaker document as stored in the `caretakers` collection
(`src/server.js` lines 82-89: the five request fields plus `createdAt`;
`updatedAt` is added by the update handler). -/
structure Caretaker where
  patientId : String
  name : String
  relation : String
  email : String
  phone : String
  createdAt : Nat
  updatedAt : Option Nat
deriving DecidableEq, Repr

/-- A user/patient document in the `users` collection (external service's
data; this service reads `name`, `organizationId` and `role`).  A falsy
`name` is modelled by the empty string. -/
structure UserDoc where
  name : String
  organizationId : String
  role : String
deriving DecidableEq, Repr

/-- The body of a `POST /api/caretaker/add` request. -/
structure AddBody where
  patientId : String
  name : String
  relation : String
  email : String
  phone : String
deriving DecidableEq, Repr

/-- The body of a `POST /api/caretaker/update` request. -/
structure UpdateBody where
  id : String
  patientId : String
  name : String
  relation : String
  phone : String
  email : String
deriving DecidableEq, Repr

/-- The `details` payload of an audit-log entry.  `CREATE` logs
`{ data: req.body }` (the add body), `DELETE` logs `{ data: caretakerData }`
(the stored pre-image), `UPDATE` logs `{ oldData, newData }`. -/
inductive LogDetails where
  | dataAdd (body : AddBody)
  | dataRec (pre : Caretaker)
  | oldNew (oldData : Caretaker) (newData : UpdateBody)
deriving DecidableEq, Repr

/-- An audit-log entry as built by `logChange` (`src/server.js` lines 45-54). -/
structure LogEntry where
  timestamp : Nat
  action : String
  userId : String
  userName : String
  entity : String
  entityId : String
  entityName : String
  details : LogDetails
deriving DecidableEq, Repr

/-- The whole document-store state seen by the caretaker service. -/
structure DB where
  caretakers : List (String × Caretaker)
  users : List (String × UserDoc)
  logs : List LogEntry
  nextId : Nat
  time : Nat
deriving DecidableEq, Repr

/-- Look a document up by id: first entry with the matching key. -/
def findDoc {α : Type} : List (String × α) → String → Option α
  | [], _ => none
  | (k, v) :: rest, key => if k = key then some v else findDoc rest key

/-- Firestore `doc(id).update(...)`: replace the document stored at `id`. -/
def setDoc {α : Type} : List (String × α) → String → α → List (String × α)
  | [], _, _ => []
  | (k, w) :: rest, id, v =>
    if k = id then (id, v) :: setDoc rest id v else (k, w) :: setDoc rest id v

/-- Firestore `doc(id).delete()`: remove the document stored at `id`. -/
def deleteDoc {α : Type} : List (String × α) → String → List (String × α)
  | [], _ => []
  | (k, v) :: rest, id =>
    if k = id then deleteDoc rest id else (k, v) :: deleteDoc rest id

/-- The fresh document id Firestore assigns on `collection.add`. -/
def freshId (st : DB) : String :=
  "c" ++ toString st.nextId

/-- Which internal operations of `logChange` throw, modelling the two
store calls inside its `try` block. -/
structure Faults where
  userLookupFails : Bool
  logWriteFails : Bool
deriving DecidableEq, Repr

/-- No store failure: every call inside `logChange` succeeds. -/
def noFaults : Faults := ⟨false, false⟩

/-- The store-level side effects a handler issues, in order. -/
inductive StoreEvent where
  | logAdd (entry : LogEntry)
  | docAdd (coll id : String)
  | docUpdate (coll id : String)
  | docDelete (coll id : String)
deriving DecidableEq, Repr

/-- The display name `logChange` resolves for the acting user
(`src/server.js` lines 41-43): `'Unknown'` when the user document is
absent, `'Unnamed User'` when it exists with a falsy `name`, else the
stored name. -/
def logUserName (st : DB) (userId : String) : String :=
  match findDoc st.users userId with
  | some u => if u.name = "" then "Unnamed User" else u.name
  | none => "Unknown"

/-- The log entry `logChange` builds (`src/server.js` lines 45-54), with
`userId || 'unknown'` and `entityName || 'N/A'` defaulting. -/
def mkLogEntry (st : DB) (action userId entity entityId entityName : String)
    (details : LogDetails) : LogEntry :=
  { timestamp := st.time
    action := action
    userId := if userId = "" then "unknown" else userId
    userName := logUserName st userId
    entity := entity
    entityId := entityId
    entityName := if entityName = "" then "N/A" else entityName
    details := details }

/-- The `logChange` function (`src/server.js` lines 39-60): build the entry and append
it to the `logs` collection.  The surrounding `try/catch` swallows every
failure: when a fault fires (the user lookup or the log write throws) the
function returns the state unchanged instead of propagating an error.  The
returned event list records the log write when it happened. -/
def logChangeF (f : Faults) (action userId entity entityId entityName : String)
    (details : LogDetails) (st : DB) : DB × List StoreEvent :=
  if f.userLookupFails then (st, [])
  else if f.logWriteFails then (st, [])
  else
    let entry := mkLogEntry st action userId entity entityId entityName details
    ({ st with logs := st.logs ++ [entry] }, [.logAdd entry])

/-- An HTTP response of the caretaker service. -/
inductive Resp where
  | ok (message : String)
  | okId (message : String) (id : String)
  | okList (items : List (String × Caretaker))
  | err (status : Nat) (error : String)
deriving DecidableEq, Repr

/-- The HTTP status of a response (`res.json` without `res.status` is 200). -/
def Resp.status : Resp → Nat
  | .err s _ => s
  | _ => 200

/-- The body of the add handlers' `try` block (`src/server.js` lines 81-96,
identical in the non-validating variant at lines 450-465): store the new
caretaker with a server-assigned `createdAt`, then write the CREATE audit
log, then answer with the new id. -/
def addCaretakerCore (b : AddBody) (f : Faults) (st : DB) :
    Resp × DB × List StoreEvent :=
  let newId := freshId st
  let c : Caretaker :=
    { patientId := b.patientId, name := b.name, relation := b.relation
      email := b.email, phone := b.phone, createdAt := st.time
      updatedAt := none }
  let st1 : DB :=
    { st with caretakers := (newId, c) :: st.caretakers, nextId := st.nextId + 1 }
  let r := logChangeF f "CREATE" b.patientId "Caretaker" newId b.name (.dataAdd b) st1
  (.okId "Caretaker added successfully" newId, r.1, .docAdd "caretakers" newId :: r.2)

/-- Handler for `POST /api/caretaker/add`, validating variant (`src/server.js`
lines 73-97): reject with 400 when any of the five fields is falsy. -/
def addCaretaker (b : AddBody) (f : Faults) (st : DB) :
    Resp × DB × List StoreEvent :=
  if b.patientId = "" ∨ b.name = "" ∨ b.relation = "" ∨ b.email = "" ∨ b.phone = "" then
    (.err 400 "All fields are required", st, [])
  else addCaretakerCore b f st

/-- Handler for `POST /api/caretaker/add`, non-validating variant (`src/server.js`
lines 448-466): no input validation at all. -/
def addCaretakerNoValidation (b : AddBody) (f : Faults) (st : DB) :
    Resp × DB × List StoreEvent :=
  addCaretakerCore b f st

/-- Handler for `POST /api/caretaker/update` (`src/server.js` lines 135-162): 400 on a
falsy `id` or `patientId`; 404 when the document is absent; 403 when its
stored `patientId` differs from the supplied one; otherwise overwrite the
four mutable fields, set `updatedAt`, write the UPDATE audit log and
answer 200. -/
def updateCaretaker (id patientId name relation phone email : String)
    (f : Faults) (st : DB) : Resp × DB × List StoreEvent :=
  if id = "" ∨ patientId = "" then
    (.err 400 "id and patientId are required", st, [])
  else
    match findDoc st.caretakers id with
    | none => (.err 404 "Caretaker not found", st, [])
    | some caretakerData =>
      if caretakerData.patientId ≠ patientId then
        (.err 403 "Unauthorized", st, [])
      else
        let c : Caretaker :=
          { caretakerData with
              name := name, relation := relation, phone := phone
              email := email, updatedAt := some st.time }
        let st1 : DB := { st with caretakers := setDoc st.caretakers id c }
        let r := logChangeF f "UPDATE" patientId "Caretaker" id name
          (.oldNew caretakerData ⟨id, patientId, name, relation, phone, email⟩) st1
        (.ok "Caretaker updated successfully", r.1, .docUpdate "caretakers" id :: r.2)

/-- Handler for `DELETE /api/caretaker/delete` (`src/server.js` lines 170-191): same
validation and ownership checks as update; on pass, first write the DELETE
audit log carrying the pre-image, then delete the document. -/
def deleteCaretaker (id patientId : String) (f : Faults) (st : DB) :
    Resp × DB × List StoreEvent :=
  if id = "" ∨ patientId = "" then
    (.err 400 "id and patientId are required", st, [])
  else
    match findDoc st.caretakers id with
    | none => (.err 404 "Caretaker not found", st, [])
    | some caretakerData =>
      if caretakerData.patientId ≠ patientId then
        (.err 403 "Unauthorized", st, [])
      else
        let r := logChangeF f "DELETE" patientId "Caretaker" id caretakerData.name
          (.dataRec caretakerData) st
        let st2 : DB := { r.1 with caretakers := deleteDoc r.1.caretakers id }
        (.ok "Caretaker deleted successfully", st2, r.2 ++ [.docDelete "caretakers" id])

/-- Phase (a) of `GET /api/caretakers/all` (`src/server.js` lines 206-210):
the ids of the `users` documents with the given `organizationId` and
`role == "user"`. -/
def orgPatientIds (organizationId : String) (st : DB) : List String :=
  (st.users.filter fun p =>
    p.2.organizationId = organizationId ∧ p.2.role = "user").map (·.1)

/-- The argument actually passed to the `'in'` filter
(`src/server.js` line 214): the patient ids, or the sentinel `["none"]`
when that list is empty. -/
def inQueryIds (organizationId : String) (st : DB) : List String :=
  let patientIds := orgPatientIds organizationId st
  if patientIds.length > 0 then patientIds else ["none"]

/-- Handler for `GET /api/caretakers/all` (`src/server.js` lines 198-229): 400 on a
falsy `organizationId`; otherwise return the caretakers whose `patientId`
is in the (never empty) `in`-filter list.  A read-only handler: the state
is unchanged. -/
def listAllCaretakers (organizationId : String) (st : DB) : Resp × DB :=
  if organizationId = "" then
    (.err 400 "organizationId is required", st)
  else
    let queryIds := inQueryIds organizationId st
    let items := st.caretakers.filter fun p => p.2.patientId ∈ queryIds
    (.okList items, st)

/-! ## Partner-code service (`src/unnamed/part_001`) -/

/-- The uppercase hexadecimal digits, in value order. -/
def hexDigitsU : List Char :=
  ['0', '1', '2', '3', '4', '5', '6', '7', '8', '9', 'A', 'B', 'C', 'D', 'E', 'F']

/-- The uppercase hexadecimal digit of value `k % 16`. -/
def hexDigitU (k : Nat) : Char :=
  hexDigitsU.getD (k % 16) '0'

/-- The two-digit uppercase hexadecimal rendering of one byte, as produced
by `Buffer.toString('hex')` followed by `toUpperCase()`. -/
def hexByte (n : Nat) : String :=
  String.mk [hexDigitU (n / 16), hexDigitU n]

/-- The `generatePartnerCode` function (`src/unnamed/part_001` lines 13-15): the
6-character uppercase hex rendering of the three random bytes
`crypto.randomBytes(3)` produced.  The byte source is a parameter here. -/
def generatePartnerCode (b0 b1 b2 : Nat) : String :=
  hexByte b0 ++ hexByte b1 ++ hexByte b2

/-- The in-process state of the partner service: the `partnerLinks`
mapping from code to user id (`src/unnamed/part_001` line 10).  The first
entry with a key wins on lookup, so prepending models overwriting. -/
structure PState where
  partnerLinks : List (String × String)
deriving DecidableEq, Repr

/-- A response of the partner service. -/
inductive PResp where
  | okGen (message userId partnerCode : String)
  | okResolve (message userId : String)
  | err (status : Nat) (error : String)
deriving DecidableEq, Repr

/-- Handler for `POST /partner/generate` (`src/unnamed/part_001` lines 18-29): 400 on a
falsy `userId`; otherwise derive the code from the three random bytes,
record `code → userId` in `partnerLinks` and return the code. -/
def generatePartner (userId : String) (b0 b1 b2 : Nat) (st : PState) :
    PResp × PState :=
  if userId = "" then (.err 400 "User ID is required", st)
  else
    let code := generatePartnerCode b0 b1 b2
    (.okGen "Partner code generated successfully" userId code,
      ⟨(code, userId) :: st.partnerLinks⟩)

/-- Handler for `GET /partner/:code` (`src/unnamed/part_001` lines 32-41): look the
code up in `partnerLinks` and guard with `if (!userId)` — the 404 fires
both when the code is absent and when the stored user id is falsy (the
empty string); otherwise answer with the mapped user id.  The mapping is
only read, never written. -/
def resolvePartner (code : String) (st : PState) : PResp × PState :=
  match findDoc st.partnerLinks code with
  | some userId =>
    if userId = "" then (.err 404 "Invalid or expired partner code", st)
    else (.okResolve "Partner code valid" userId, st)
  | none => (.err 404 "Invalid or expired partner code", st)

/-- One inbound request of the partner service, with the random bytes the
generate handler would draw. -/
inductive PEvent where
  | generate (userId : String) (b0 b1 b2 : Nat)
  | resolve (code : String)
deriving DecidableEq, Repr

/-- The state after serving one request. -/
def pstep (st : PState) (e : PEvent) : PState :=
  match e with
  | .generate userId b0 b1 b2 => (generatePartner userId b0 b1 b2 st).2
  | .resolve code => (resolvePartner code st).2

/-- The state after serving a sequence of requests, in order. -/
def prun (st : PState) : List PEvent → PState
  | [] => st
  | e :: rest => prun (pstep st e) rest

/-- The user id recorded by the last generate request in `evs` that stored
under `code`, if any: later requests win. -/
def lastGenFor (code : String) : List PEvent → Option String
  | [] => none
  | e :: rest =>
    match lastGenFor code rest with
    | some u => some u
    | none =>
      match e with
      | .generate userId b0 b1 b2 =>
        if userId ≠ "" ∧ generatePartnerCode b0 b1 b2 = code then some userId
        else none
      | .resolve _ => none

/-! ## Helper lemmas -/

theorem logChangeF_caretakers (f : Faults)
    (action userId entity entityId entityName : String)
    (details : LogDetails) (st : DB) :
    (logChangeF f action userId entity entityId entityName details st).1.caretakers
      = st.caretakers := by
  unfold logChangeF
  split
  · rfl
  · split <;> rfl

theorem freshId_ne_empty (st : DB) : freshId st ≠ "" := by
  intro h
  have hlen := congrArg String.length h
  rw [freshId, String.length_append] at hlen
  simp at hlen
  exact absurd hlen.1 (by decide)

theorem findDoc_setDoc_self {α : Type} (l : List (String × α)) (id : String)
    (v w : α) (h : findDoc l id = some w) :
    findDoc (setDoc l id v) id = some v := by
  induction l with
  | nil => simp [findDoc] at h
  | cons p rest ih =>
    obtain ⟨k, u⟩ := p
    by_cases hp : k = id
    · simp [setDoc, findDoc, hp]
    · simp only [findDoc, hp, if_false] at h
      simp only [setDoc, hp, if_false, findDoc]
      exact ih h

theorem findDoc_setDoc_other {α : Type} (l : List (String × α)) (id k : String)
    (v : α) (hk : k ≠ id) :
    findDoc (setDoc l id v) k = findDoc l k := by
  induction l with
  | nil => rfl
  | cons p rest ih =>
    obtain ⟨k', u⟩ := p
    by_cases hp : k' = id
    · have hik : ¬ id = k := fun h => hk h.symm
      subst hp
      simp [setDoc, findDoc, hik, ih]
    · simp only [setDoc, hp, if_false, findDoc]
      split
      · rfl
      · exact ih

/-! ## Claim theorems -/

/-- Claim C3: for every invocation of the audit logger with a falsy
acting-user id (the empty string), a log entry is still appended to the
log collection, and that entry's `userId` field is the literal string
`"unknown"`. -/
theorem logChange_falsy_user_records_unknown
    (action entity entityId entityName : String) (details : LogDetails) (st : DB) :
    (logChangeF noFaults action "" entity entityId entityName details st).1.logs
      = st.logs ++ [mkLogEntry st action "" entity entityId entityName details]
    ∧ (mkLogEntry st action "" entity entityId entityName details).userId
      = "unknown" := by
  constructor
  · simp [logChangeF, noFaults]
  · simp [mkLogEntry]

/-- Claim C7: an add request with all five fields present returns the
success message and the (non-empty) fresh id, and the stored record
echoes the submitted fields together with the server-assigned creation
timestamp. -/
theorem add_success_stores_submitted_fields (b : AddBody) (f : Faults) (st : DB)
    (hp : b.patientId ≠ "") (hn : b.name ≠ "") (hr : b.relation ≠ "")
    (he : b.email ≠ "") (hph : b.phone ≠ "") :
    (addCaretaker b f st).1 = .okId "Caretaker added successfully" (freshId st)
    ∧ freshId st ≠ ""
    ∧ findDoc (addCaretaker b f st).2.1.caretakers (freshId st)
        = some { patientId := b.patientId, name := b.name, relation := b.relation
                 email := b.email, phone := b.phone, createdAt := st.time
                 updatedAt := none } := by
  have hcond : ¬ (b.patientId = "" ∨ b.name = "" ∨ b.relation = "" ∨
      b.email = "" ∨ b.phone = "") := by
    simp [hp, hn, hr, he, hph]
  refine ⟨?_, freshId_ne_empty st, ?_⟩
  · simp [addCaretaker, hcond, addCaretakerCore]
  · simp only [addCaretaker, hcond, if_false, addCaretakerCore]
    rw [logChangeF_caretakers]
    simp [findDoc]

/-- Witness for `add_success_stores_submitted_fields` at a concrete
request and the empty store. -/
theorem add_success_witness :
    ("p1" : String) ≠ "" ∧
    (addCaretaker ⟨"p1", "Jane", "daughter", "j@x.com", "555-1"⟩ noFaults
        ⟨[], [], [], 0, 0⟩).1
      = .okId "Caretaker added successfully" (freshId ⟨[], [], [], 0, 0⟩)
    ∧ freshId ⟨[], [], [], 0, 0⟩ ≠ ""
    ∧ findDoc (addCaretaker ⟨"p1", "Jane", "daughter", "j@x.com", "555-1"⟩ noFaults
          ⟨[], [], [], 0, 0⟩).2.1.caretakers (freshId ⟨[], [], [], 0, 0⟩)
        = some { patientId := "p1", name := "Jane", relation := "daughter"
                 email := "j@x.com", phone := "555-1", createdAt := 0
                 updatedAt := none } :=
  ⟨by decide,
   add_success_stores_submitted_fields ⟨"p1", "Jane", "daughter", "j@x.com", "555-1"⟩
     noFaults ⟨[], [], [], 0, 0⟩
     (by decide) (by decide) (by decide) (by decide) (by decide)⟩

/-- Claim C5 counterexample: the non-validating add variant
(`src/server.js` lines 448-466) accepts a request whose `name` is absent:
it answers 200 and performs both the store write and the audit-log write,
where the claim demands 400 and no writes. -/
theorem add_missing_field_no_validation_counterexample :
    (addCaretakerNoValidation ⟨"p1", "", "rel", "e@x", "555"⟩ noFaults
        ⟨[], [], [], 0, 0⟩).1.status = 200
    ∧ (addCaretakerNoValidation ⟨"p1", "", "rel", "e@x", "555"⟩ noFaults
        ⟨[], [], [], 0, 0⟩).2.1.caretakers.length = 1
    ∧ (addCaretakerNoValidation ⟨"p1", "", "rel", "e@x", "555"⟩ noFaults
        ⟨[], [], [], 0, 0⟩).2.1.logs.length = 1 := by
  decide

/-- Claim C5 (amended): in the validating add handler (`src/server.js`
lines 73-97), a request with at least one of the five fields absent
returns 400 and leaves the store untouched — no caretaker write and no
audit-log entry (the non-validating variant at lines 448-466 accepts such
requests). -/
theorem add_missing_field_rejected (b : AddBody) (f : Faults) (st : DB)
    (h : b.patientId = "" ∨ b.name = "" ∨ b.relation = "" ∨
      b.email = "" ∨ b.phone = "") :
    addCaretaker b f st = (.err 400 "All fields are required", st, []) := by
  simp [addCaretaker, h]

/-- Witness for `add_missing_field_rejected` at a concrete request whose
`name` is absent. -/
theorem add_missing_field_rejected_witness :
    (("p1" : String) = "" ∨ ("" : String) = "" ∨ ("rel" : String) = "" ∨
      ("e@x" : String) = "" ∨ ("555" : String) = "")
    ∧ addCaretaker ⟨"p1", "", "rel", "e@x", "555"⟩ noFaults ⟨[], [], [], 0, 0⟩
        = (.err 400 "All fields are required", ⟨[], [], [], 0, 0⟩, []) :=
  ⟨by decide,
   add_missing_field_rejected ⟨"p1", "", "rel", "e@x", "555"⟩ noFaults
     ⟨[], [], [], 0, 0⟩ (by decide)⟩

/-- Claim C4 counterexample: with no matching patient (phase (a) yields no
id) but a stored caretaker whose `patientId` is the literal sentinel
`"none"`, the list-by-organization operation returns that caretaker, not
an empty array — the sentinel is not guaranteed to match no real id. -/
theorem list_all_sentinel_counterexample :
    orgPatientIds "org1" ⟨[("c1", ⟨"none", "n", "r", "e", "p", 0, none⟩)], [], [], 0, 0⟩
      = []
    ∧ (listAllCaretakers "org1"
        ⟨[("c1", ⟨"none", "n", "r", "e", "p", 0, none⟩)], [], [], 0, 0⟩).1
      ≠ .okList [] := by
  decide

/-- Claim C4 (amended): the `'in'`-list filter argument is never the empty
list; and a list-by-organization request whose phase-(a) patient query
yields an empty id set returns an empty array with success, provided no
stored caretaker's `patientId` equals the substituted sentinel `"none"`. -/
theorem list_all_empty_org_returns_empty :
    (∀ org st, inQueryIds org st ≠ [])
    ∧ ∀ org st, org ≠ "" → orgPatientIds org st = [] →
        (∀ p ∈ st.caretakers, p.2.patientId ≠ "none") →
        listAllCaretakers org st = (.okList [], st) := by
  constructor
  · intro org st
    by_cases h : (orgPatientIds org st).length > 0
    · simpa [inQueryIds, h] using List.ne_nil_of_length_pos h
    · simp [inQueryIds, h]
  · intro org st horg hempty hsent
    have hq : inQueryIds org st = ["none"] := by
      simp [inQueryIds, hempty]
    have hfilter :
        (st.caretakers.filter fun p => p.2.patientId ∈ inQueryIds org st) = [] := by
      rw [hq, List.filter_eq_nil_iff]
      intro p hp
      simpa using hsent p hp
    simp [listAllCaretakers, horg, hfilter]

/-- Witness for `list_all_empty_org_returns_empty` at a concrete
organization and a store holding one unrelated caretaker and no users. -/
theorem list_all_empty_org_witness :
    inQueryIds "o" ⟨[("c1", ⟨"p9", "n", "r", "e", "p", 0, none⟩)], [], [], 0, 0⟩ ≠ []
    ∧ listAllCaretakers "o" ⟨[("c1", ⟨"p9", "n", "r", "e", "p", 0, none⟩)], [], [], 0, 0⟩
        = (.okList [], ⟨[("c1", ⟨"p9", "n", "r", "e", "p", 0, none⟩)], [], [], 0, 0⟩) :=
  ⟨list_all_empty_org_returns_empty.1 "o" _,
   list_all_empty_org_returns_empty.2 "o" _ (by decide) (by decide) (by decide)⟩

/-- Claim C1: for update and delete requests with non-empty `id` and
`patientId`, the operation fails with 404 exactly when no caretaker
document with that id exists, fails with 403 exactly when the document
exists but its stored `patientId` differs from the supplied one, and in
both failure cases the whole store state is unchanged and no store event
(in particular no audit-log write) is issued. -/
theorem update_delete_failure_modes
    (id pid n rel ph em : String) (f : Faults) (st : DB)
    (hid : id ≠ "") (hpid : pid ≠ "") :
    ((updateCaretaker id pid n rel ph em f st).1.status = 404 ↔
        findDoc st.caretakers id = none)
    ∧ ((updateCaretaker id pid n rel ph em f st).1.status = 403 ↔
        ∃ c, findDoc st.caretakers id = some c ∧ c.patientId ≠ pid)
    ∧ ((updateCaretaker id pid n rel ph em f st).1.status = 404 ∨
          (updateCaretaker id pid n rel ph em f st).1.status = 403 →
        (updateCaretaker id pid n rel ph em f st).2.1 = st ∧
          (updateCaretaker id pid n rel ph em f st).2.2 = [])
    ∧ ((deleteCaretaker id pid f st).1.status = 404 ↔
        findDoc st.caretakers id = none)
    ∧ ((deleteCaretaker id pid f st).1.status = 403 ↔
        ∃ c, findDoc st.caretakers id = some c ∧ c.patientId ≠ pid)
    ∧ ((deleteCaretaker id pid f st).1.status = 404 ∨
          (deleteCaretaker id pid f st).1.status = 403 →
        (deleteCaretaker id pid f st).2.1 = st ∧
          (deleteCaretaker id pid f st).2.2 = []) := by
  have hcond : ¬ (id = "" ∨ pid = "") := by simp [hid, hpid]
  cases hfd : findDoc st.caretakers id with
  | none =>
    simp [updateCaretaker, deleteCaretaker, hcond, hfd, Resp.status]
  | some c =>
    by_cases hpm : c.patientId = pid
    · simp [updateCaretaker, deleteCaretaker, hcond, hfd, hpm, Resp.status]
    · simp [updateCaretaker, deleteCaretaker, hcond, hfd, hpm, Resp.status]

/-- Witness for `update_delete_failure_modes` at a concrete id absent
from a one-record store. -/
theorem update_delete_failure_modes_witness :
    ("cX" : String) ≠ "" ∧ ("p1" : String) ≠ "" ∧
    ((updateCaretaker "cX" "p1" "n" "r" "ph" "e" noFaults
        ⟨[("c0", ⟨"p1", "Jane", "d", "e", "ph", 0, none⟩)], [], [], 1, 5⟩).1.status = 404 ↔
      findDoc (DB.mk [("c0", ⟨"p1", "Jane", "d", "e", "ph", 0, none⟩)] [] [] 1 5).caretakers
        "cX" = none) :=
  ⟨by decide, by decide,
   (update_delete_failure_modes "cX" "p1" "n" "r" "ph" "e" noFaults
     ⟨[("c0", ⟨"p1", "Jane", "d", "e", "ph", 0, none⟩)], [], [], 1, 5⟩
     (by decide) (by decide)).1⟩

/-- Claim C9: a successful update stores, at the same record id, the
record whose `name`, `relation`, `phone`, `email` are the submitted
values and whose `updatedAt` is the server time, while `patientId` and
`createdAt` are carried over from the old record; every other record id
resolves exactly as before. -/
theorem update_overwrites_only_mutable_fields
    (id pid n rel ph em : String) (f : Faults) (st : DB) (old : Caretaker)
    (hid : id ≠ "") (hpid : pid ≠ "")
    (hfd : findDoc st.caretakers id = some old) (hpm : old.patientId = pid) :
    (updateCaretaker id pid n rel ph em f st).1 = .ok "Caretaker updated successfully"
    ∧ findDoc (updateCaretaker id pid n rel ph em f st).2.1.caretakers id
        = some { patientId := old.patientId, name := n, relation := rel
                 email := em, phone := ph, createdAt := old.createdAt
                 updatedAt := some st.time }
    ∧ ∀ k, k ≠ id →
        findDoc (updateCaretaker id pid n rel ph em f st).2.1.caretakers k
          = findDoc st.caretakers k := by
  have hcond : ¬ (id = "" ∨ pid = "") := by simp [hid, hpid]
  have hupd : (updateCaretaker id pid n rel ph em f st).2.1.caretakers
      = setDoc st.caretakers id
          { patientId := old.patientId, name := n, relation := rel
            email := em, phone := ph, createdAt := old.createdAt
            updatedAt := some st.time } := by
    simp only [updateCaretaker, hcond, if_false, hfd, hpm]
    simp [logChangeF_caretakers]
  refine ⟨?_, ?_, ?_⟩
  · simp [updateCaretaker, hcond, hfd, hpm]
  · rw [hupd]
    exact findDoc_setDoc_self _ _ _ _ hfd
  · intro k hk
    rw [hupd]
    exact findDoc_setDoc_other _ _ _ _ hk

/-- Witness for `update_overwrites_only_mutable_fields` at a concrete
one-record store. -/
theorem update_overwrites_witness :
    ("c0" : String) ≠ "" ∧ ("p1" : String) ≠ "" ∧
    findDoc [("c0", (⟨"p1", "Jane", "d", "e", "ph", 0, none⟩ : Caretaker))] "c0"
      = some ⟨"p1", "Jane", "d", "e", "ph", 0, none⟩ ∧
    (updateCaretaker "c0" "p1" "J2" "son" "ph2" "e2" noFaults
        ⟨[("c0", ⟨"p1", "Jane", "d", "e", "ph", 0, none⟩)], [], [], 1, 5⟩).1
      = .ok "Caretaker updated successfully" :=
  ⟨by decide, by decide, by decide,
   (update_overwrites_only_mutable_fields "c0" "p1" "J2" "son" "ph2" "e2" noFaults
     ⟨[("c0", ⟨"p1", "Jane", "d", "e", "ph", 0, none⟩)], [], [], 1, 5⟩
     ⟨"p1", "Jane", "d", "e", "ph", 0, none⟩
     (by decide) (by decide) (by decide) (by decide)).1⟩

/-- Claim C2: a successful delete issues exactly two store events, the
audit-log write strictly before the document delete; the log collection
gains exactly one entry, whose `action` is `DELETE` and whose
`details.data` is the record's full pre-deletion state. -/
theorem delete_logs_preimage_before_delete
    (id pid : String) (st : DB) (pre : Caretaker)
    (hid : id ≠ "") (hpid : pid ≠ "")
    (hfd : findDoc st.caretakers id = some pre) (hpm : pre.patientId = pid) :
    (deleteCaretaker id pid noFaults st).2.2
      = [.logAdd (mkLogEntry st "DELETE" pid "Caretaker" id pre.name (.dataRec pre)),
         .docDelete "caretakers" id]
    ∧ (deleteCaretaker id pid noFaults st).2.1.logs
      = st.logs ++ [mkLogEntry st "DELETE" pid "Caretaker" id pre.name (.dataRec pre)]
    ∧ (mkLogEntry st "DELETE" pid "Caretaker" id pre.name (.dataRec pre)).action
      = "DELETE"
    ∧ (mkLogEntry st "DELETE" pid "Caretaker" id pre.name (.dataRec pre)).details
      = .dataRec pre := by
  have hcond : ¬ (id = "" ∨ pid = "") := by simp [hid, hpid]
  refine ⟨?_, ?_, rfl, rfl⟩ <;>
    simp [deleteCaretaker, hcond, hfd, hpm, logChangeF, noFaults]

/-- Witness for `delete_logs_preimage_before_delete` at a concrete
one-record store. -/
theorem delete_logs_preimage_witness :
    ("c0" : String) ≠ "" ∧ ("p1" : String) ≠ "" ∧
    (deleteCaretaker "c0" "p1" noFaults
        ⟨[("c0", ⟨"p1", "Jane", "d", "e", "ph", 0, none⟩)], [], [], 1, 5⟩).2.2
      = [.logAdd (mkLogEntry ⟨[("c0", ⟨"p1", "Jane", "d", "e", "ph", 0, none⟩)], [], [], 1, 5⟩
            "DELETE" "p1" "Caretaker" "c0" "Jane"
            (.dataRec ⟨"p1", "Jane", "d", "e", "ph", 0, none⟩)),
         .docDelete "caretakers" "c0"] :=
  ⟨by decide, by decide,
   (delete_logs_preimage_before_delete "c0" "p1"
     ⟨[("c0", ⟨"p1", "Jane", "d", "e", "ph", 0, none⟩)], [], [], 1, 5⟩
     ⟨"p1", "Jane", "d", "e", "ph", 0, none⟩
     (by decide) (by decide) (by decide) (by decide)).1⟩

/-- Claim C6: the audit logger swallows its internal failures — whatever
combination of user-name-lookup failure and log-write failure occurs, the
HTTP response of every mutating handler is identical to the one produced
when the audit log succeeds. -/
theorem audit_log_failure_never_propagates
    (f : Faults) (b : AddBody) (id pid n rel ph em : String) (st : DB) :
    (addCaretaker b f st).1 = (addCaretaker b noFaults st).1
    ∧ (addCaretakerNoValidation b f st).1 = (addCaretakerNoValidation b noFaults st).1
    ∧ (updateCaretaker id pid n rel ph em f st).1
        = (updateCaretaker id pid n rel ph em noFaults st).1
    ∧ (deleteCaretaker id pid f st).1 = (deleteCaretaker id pid noFaults st).1 := by
  refine ⟨?_, ?_, ?_, ?_⟩
  · by_cases h0 : b.patientId = "" ∨ b.name = "" ∨ b.relation = "" ∨
        b.email = "" ∨ b.phone = "" <;>
      simp [addCaretaker, addCaretakerCore, h0]
  · simp [addCaretakerNoValidation, addCaretakerCore]
  · by_cases h0 : id = "" ∨ pid = ""
    · simp [updateCaretaker, h0]
    · cases hfd : findDoc st.caretakers id with
      | none => simp [updateCaretaker, h0, hfd]
      | some c => by_cases hpm : c.patientId = pid <;>
          simp [updateCaretaker, h0, hfd, hpm]
  · by_cases h0 : id = "" ∨ pid = ""
    · simp [deleteCaretaker, h0]
    · cases hfd : findDoc st.caretakers id with
      | none => simp [deleteCaretaker, h0, hfd]
      | some c => by_cases hpm : c.patientId = pid <;>
          simp [deleteCaretaker, h0, hfd, hpm]

/-! ## Partner-service lemmas and claims -/

theorem hexDigitU_mem (k : Nat) : hexDigitU k ∈ hexDigitsU := by
  unfold hexDigitU
  have h : k % 16 < 16 := Nat.mod_lt _ (by norm_num)
  generalize hg : k % 16 = m
  rw [hg] at h
  interval_cases m <;> decide

theorem generatePartnerCode_data (b0 b1 b2 : Nat) :
    (generatePartnerCode b0 b1 b2).data
      = [hexDigitU (b0 / 16), hexDigitU b0, hexDigitU (b1 / 16), hexDigitU b1,
         hexDigitU (b2 / 16), hexDigitU b2] := rfl

theorem resolvePartner_preserves_state (code : String) (st : PState) :
    (resolvePartner code st).2 = st := by
  unfold resolvePartner
  split
  · split <;> rfl
  · rfl

theorem lastGenFor_ne_empty (evs : List PEvent) (code u : String)
    (h : lastGenFor code evs = some u) : u ≠ "" := by
  induction evs with
  | nil => simp [lastGenFor] at h
  | cons e rest ih =>
    simp only [lastGenFor] at h
    cases hrest : lastGenFor code rest with
    | some v =>
      rw [hrest] at h
      cases h
      exact ih hrest
    | none =>
      rw [hrest] at h
      cases e with
      | resolve c =>
        dsimp only at h
        exact Option.noConfusion h
      | generate userId b0 b1 b2 =>
        dsimp only at h
        by_cases hcond : userId ≠ "" ∧ generatePartnerCode b0 b1 b2 = code
        · rw [if_pos hcond] at h
          cases h
          exact hcond.1
        · rw [if_neg hcond] at h
          exact Option.noConfusion h

/-- Claim C8: generating a partner code for a truthy user id answers with
a code that is 6 characters long and made of uppercase hexadecimal digits
(derived from the three random bytes), and resolving that code against
the resulting state returns the same user id; resolving any code not in
the mapping returns the 404 "invalid or expired" error. -/
theorem partner_generate_resolve_roundtrip :
    (∀ (userId : String) (b0 b1 b2 : Nat) (st : PState), userId ≠ "" →
      (generatePartner userId b0 b1 b2 st).1
        = .okGen "Partner code generated successfully" userId
            (generatePartnerCode b0 b1 b2)
      ∧ (generatePartnerCode b0 b1 b2).length = 6
      ∧ (∀ ch ∈ (generatePartnerCode b0 b1 b2).data, ch ∈ hexDigitsU)
      ∧ resolvePartner (generatePartnerCode b0 b1 b2)
            (generatePartner userId b0 b1 b2 st).2
          = (.okResolve "Partner code valid" userId,
             (generatePartner userId b0 b1 b2 st).2))
    ∧ (∀ (code : String) (st : PState), findDoc st.partnerLinks code = none →
        resolvePartner code st = (.err 404 "Invalid or expired partner code", st)) := by
  constructor
  · intro userId b0 b1 b2 st h
    refine ⟨?_, rfl, ?_, ?_⟩
    · simp [generatePartner, h]
    · intro ch hch
      rw [generatePartnerCode_data] at hch
      simp only [List.mem_cons, List.not_mem_nil, or_false] at hch
      rcases hch with h1 | h1 | h1 | h1 | h1 | h1 <;>
        (rw [h1]; exact hexDigitU_mem _)
    · simp [generatePartner, h, resolvePartner, findDoc]
  · intro code st h
    simp [resolvePartner, h]

/-- Witness for `partner_generate_resolve_roundtrip`: a concrete generate
on the empty mapping and a resolve of an unknown code. -/
theorem partner_generate_resolve_witness :
    ("u1" : String) ≠ ""
    ∧ (generatePartner "u1" 0 1 255 ⟨[]⟩).1
        = .okGen "Partner code generated successfully" "u1" (generatePartnerCode 0 1 255)
    ∧ findDoc (PState.mk []).partnerLinks "AAAAAA" = none
    ∧ resolvePartner "AAAAAA" ⟨[]⟩
        = (.err 404 "Invalid or expired partner code", ⟨[]⟩) :=
  ⟨by decide,
   (partner_generate_resolve_roundtrip.1 "u1" 0 1 255 ⟨[]⟩ (by decide)).1,
   rfl,
   partner_generate_resolve_roundtrip.2 "AAAAAA" ⟨[]⟩ rfl⟩

/-- Claim C10: the partner-code mapping only gains or overwrites entries.
Resolving never mutates the state; over any sequence of requests, a code
resolves to the user id of the most recent generate request that stored
under it, falling back to its initial binding — so no operation removes a
key.  Every user id a generate request records is non-empty (generate
rejects a falsy `userId` with 400), and resolving a code bound to a
non-empty user id succeeds with that id — so a code once returned by
generate keeps resolving for the process lifetime, and repeated resolves
between generates return the same user. -/
theorem partner_links_only_grow :
    (∀ code st, (resolvePartner code st).2 = st)
    ∧ (∀ (evs : List PEvent) (st : PState) (code : String),
        findDoc (prun st evs).partnerLinks code
          = match lastGenFor code evs with
            | some u => some u
            | none => findDoc st.partnerLinks code)
    ∧ (∀ (evs : List PEvent) (code u : String),
        lastGenFor code evs = some u → u ≠ "")
    ∧ (∀ (st : PState) (code u : String),
        findDoc st.partnerLinks code = some u → u ≠ "" →
        resolvePartner code st = (.okResolve "Partner code valid" u, st)) := by
  refine ⟨resolvePartner_preserves_state, ?_, lastGenFor_ne_empty, ?_⟩
  · intro evs
    induction evs with
    | nil => intro st code; rfl
    | cons e rest ih =>
      intro st code
      have hstep : findDoc (prun st (e :: rest)).partnerLinks code
          = match lastGenFor code rest with
            | some u => some u
            | none => findDoc (pstep st e).partnerLinks code := ih (pstep st e) code
      rw [show prun st (e :: rest) = prun (pstep st e) rest from rfl] at *
      rw [hstep]
      cases hrest : lastGenFor code rest with
      | some u => simp [lastGenFor, hrest]
      | none =>
        simp only [lastGenFor, hrest]
        cases e with
        | resolve c =>
          simp [pstep, resolvePartner_preserves_state]
        | generate userId b0 b1 b2 =>
          by_cases hu : userId = ""
          · simp [pstep, generatePartner, hu]
          · by_cases hc : generatePartnerCode b0 b1 b2 = code
            · simp [pstep, generatePartner, hu, findDoc, hc]
            · simp [pstep, generatePartner, hu, findDoc, hc]
  · intro st code u h hu
    simp [resolvePartner, h, hu]

/-- Witness for `partner_links_only_grow`: the trace equation at a
concrete generate-then-resolve trace, the non-emptiness of the recorded
user id, and a resolve of a stored code. -/
theorem partner_links_only_grow_witness :
    findDoc (prun ⟨[]⟩ [.generate "u1" 0 1 255, .resolve "0001FF"]).partnerLinks "0001FF"
      = (match lastGenFor "0001FF" [.generate "u1" 0 1 255, .resolve "0001FF"] with
         | some u => some u
         | none => findDoc (PState.mk []).partnerLinks "0001FF")
    ∧ lastGenFor "0001FF" [.generate "u1" 0 1 255] = some "u1"
    ∧ ("u1" : String) ≠ ""
    ∧ findDoc (PState.mk [("0001FF", "u1")]).partnerLinks "0001FF" = some "u1"
    ∧ resolvePartner "0001FF" ⟨[("0001FF", "u1")]⟩
        = (.okResolve "Partner code valid" "u1", ⟨[("0001FF", "u1")]⟩) :=
  ⟨partner_links_only_grow.2.1 [.generate "u1" 0 1 255, .resolve "0001FF"] ⟨[]⟩ "0001FF",
   by decide,
   partner_links_only_grow.2.2.1 [.generate "u1" 0 1 255] "0001FF" "u1" (by decide),
   by decide,
   partner_links_only_grow.2.2.2 ⟨[("0001FF", "u1")]⟩ "0001FF" "u1" (by decide) (by decide)⟩

end PartnerService
